import Mathlib

/-!
Shallow embedding of src/test1/test1/throughput.cpp, a UHD SDR throughput
benchmark.  The vendor driver calls (send, recv, clock reads) are modelled as
environment inputs supplied to each loop iteration; machine integers
(the two std::atomic global counters of type uint64_t) are modelled as Nat
with explicit reduction mod 2^64 at every update, matching C++ unsigned
wraparound; the double arithmetic of the statistics thread is modelled over
the rationals (each real quantity kept exact), with the integer part of the
Mbps numerator computed in uint64 arithmetic exactly as the source does.
-/

set_option autoImplicit false

namespace Throughput

/-! ### Configuration constants (throughput.cpp lines 14-20) -/

def CENTER_FREQ : ℚ := 1e9
def SAMPLE_RATE : ℚ := 1e6
def TX_GAIN : ℚ := 15
def RX_GAIN : ℚ := 20
def SAMPS_PER_BUFFER : Nat := 4096
def RUN_TIME : ℚ := 10
def NUM_TX_BUFFERS : Nat := 8

/-- Modulus of the uint64_t atomics total_rx_samples and total_tx_samples. -/
def U64 : Nat := 2 ^ 64

/-- sizeof(std::complex of float) on the target platform: two 4-byte floats. -/
def sizeofComplexFloat : Nat := 8

/-! ### Data model -/

/-- One complex sample.  The generated waveform components are the exact
integers plus or minus 1 (lines 74-76), which float represents exactly, so a
sample is a pair of integers. -/
abbrev Sample := ℤ × ℤ

/-- The mutable program state shared between the three threads:
stop_signal, total_rx_samples, total_tx_samples (lines 22-24), the
main-local flag tx_done captured by reference in the TX lambda (line 94),
and the pre-generated transmit buffers tx_buffs (lines 68-78), captured by
reference as well. -/
structure ProgState where
  stop_signal : Bool
  tx_done : Bool
  total_rx_samples : Nat
  total_tx_samples : Nat
  tx_buffs : List (List Sample)
  deriving Repr, DecidableEq

/-- uhd tx_metadata_t, restricted to the fields the program writes. -/
structure TxMetadata where
  start_of_burst : Bool
  end_of_burst : Bool
  deriving Repr, DecidableEq

/-- The rx_metadata_t error codes of the vendor library. -/
inductive RxErrorCode
  | ERROR_CODE_NONE
  | ERROR_CODE_TIMEOUT
  | ERROR_CODE_LATE_COMMAND
  | ERROR_CODE_BROKEN_CHAIN
  | ERROR_CODE_OVERFLOW
  | ERROR_CODE_ALIGNMENT
  | ERROR_CODE_BAD_PACKET
  deriving Repr, DecidableEq

/-- uhd rx_metadata_t, restricted to the field the program reads. -/
structure RxMetadata where
  error_code : RxErrorCode
  deriving Repr, DecidableEq

/-- Observable output events on stdout / stderr. -/
inductive LogEvent
  | stderrTxUnderflow (num_sent : Nat) (buff_size : Nat)
  | stderrRxError (code : RxErrorCode)
  | stdoutStats (tx_mbps : ℚ) (rx_mbps : ℚ) (samples : Nat) (time : ℤ)
  | stdoutFinal (samples : Nat)
  deriving Repr, DecidableEq

/-- How a loop-body execution ends.  Every body of the three loops falls
through (or executes a continue statement) to the next guard test; none
contains a break or return. -/
inductive IterOutcome
  | nextIteration
  | breakLoop
  deriving Repr, DecidableEq

/-! ### TX thread (lines 95-119) -/

/-- Local state of the TX lambda: the metadata struct md and buff_idx. -/
structure TxLocal where
  md : TxMetadata
  buff_idx : Nat
  deriving Repr, DecidableEq

/-- Initial TX local state (lines 97-101): start_of_burst = true,
end_of_burst = false, buff_idx = 0. -/
def txLocal0 : TxLocal := ⟨⟨true, false⟩, 0⟩

/-- A call to tx_stream send, recording the sample data passed, the
requested number of samples and the metadata at the call. -/
structure SendCall where
  data : List Sample
  nsamps : Nat
  md : TxMetadata
  deriving Repr, DecidableEq

/-- Result of one TX loop-body execution. -/
structure TxIterResult where
  state : ProgState
  loc : TxLocal
  logs : List LogEvent
  call : SendCall
  outcome : IterOutcome
  deriving Repr, DecidableEq

/-- One iteration of the TX while loop (lines 105-116).  The driver result
num_sent of the blocking send is an environment input.  The body: send the
current buffer, log an underflow to stderr when num_sent is less than the
buffer size, add num_sent to total_tx_samples (uint64 wraparound), advance
buff_idx round-robin, clear start_of_burst. -/
def txIter (num_sent : Nat) (s : ProgState) (l : TxLocal) : TxIterResult :=
  let buff := s.tx_buffs.getD l.buff_idx []
  { state := { s with total_tx_samples := (s.total_tx_samples + num_sent) % U64 }
    loc := ⟨⟨false, l.md.end_of_burst⟩, (l.buff_idx + 1) % NUM_TX_BUFFERS⟩
    logs := if num_sent < buff.length
            then [LogEvent.stderrTxUnderflow num_sent buff.length] else []
    call := ⟨buff, buff.length, l.md⟩
    outcome := IterOutcome.nextIteration }

/-- The TX loop guard (line 105): while not tx_done. -/
def txLoopContinues (s : ProgState) : Bool := !s.tx_done

/-- Result of a TX loop run / of the whole TX thread. -/
structure TxRunResult where
  state : ProgState
  loc : TxLocal
  logs : List LogEvent
  calls : List SendCall
  deriving Repr, DecidableEq

/-- The TX while loop run for the iterations on which the guard observed
tx_done still false; the environment list gives the driver send results of
those iterations. -/
def txLoop : List Nat → ProgState → TxLocal → TxRunResult
  | [], s, l => ⟨s, l, [], []⟩
  | e :: rest, s, l =>
      let r := txIter e s l
      let rr := txLoop rest r.state r.loc
      ⟨rr.state, rr.loc, r.logs ++ rr.logs, r.call :: rr.calls⟩

/-- Local states at the start of each TX loop iteration, in order: the
state in which tx_buffs[buff_idx] is evaluated. -/
def txLocals : List Nat → ProgState → TxLocal → List TxLocal
  | [], _, _ => []
  | e :: rest, s, l => l :: txLocals rest (txIter e s l).state (txIter e s l).loc

/-- The whole TX thread body (lines 95-119): initialise md and buff_idx,
run the loop, then set end_of_burst and issue a final zero-length send. -/
def txThread (envs : List Nat) (s : ProgState) : TxRunResult :=
  let r := txLoop envs s txLocal0
  { r with
      loc := ⟨⟨r.loc.md.start_of_burst, true⟩, r.loc.buff_idx⟩
      calls := r.calls ++ [⟨[], 0, ⟨r.loc.md.start_of_burst, true⟩⟩] }

/-! ### RX loop on the main thread (lines 126-144) -/

/-- Result of one RX loop-body execution. -/
structure RxIterResult where
  state : ProgState
  logs : List LogEvent
  outcome : IterOutcome
  deriving Repr, DecidableEq

/-- One iteration of the receive loop body (lines 134-143): recv returns
num_rx samples and metadata md (environment inputs).  On an error code
other than ERROR_CODE_NONE, log to stderr and continue; otherwise add
num_rx to total_rx_samples (uint64 wraparound). -/
def rxIter (num_rx : Nat) (md : RxMetadata) (s : ProgState) : RxIterResult :=
  if md.error_code ≠ RxErrorCode.ERROR_CODE_NONE then
    ⟨s, [LogEvent.stderrRxError md.error_code], IterOutcome.nextIteration⟩
  else
    ⟨{ s with total_rx_samples := (s.total_rx_samples + num_rx) % U64 },
     [], IterOutcome.nextIteration⟩

/-- The receive loop (lines 129-144).  Each environment triple gives the
elapsed time sampled by the guard and the recv results of that iteration;
the loop body runs only while the elapsed time is below RUN_TIME. -/
def rxLoop : List (ℚ × Nat × RxMetadata) → ProgState → ProgState × List LogEvent
  | [], s => (s, [])
  | (t, n, md) :: rest, s =>
      if t < RUN_TIME then
        let r := rxIter n md s
        let r2 := rxLoop rest r.state
        (r2.1, r.logs ++ r2.2)
      else (s, [])

/-! ### Statistics thread (lines 28-46) -/

/-- The Mbps figure the statistics thread computes from a counter value
(lines 38-41): the numerator counter * sizeof(complex float) * 8 is uint64
arithmetic (reduced mod 2^64), then divided by duration * 1e6 in double
arithmetic, modelled exactly over the rationals. -/
def mbpsOf (duration : ℚ) (counter : Nat) : ℚ :=
  ((counter * sizeofComplexFloat * 8) % U64 : Nat) / (duration * 1e6)

/-- C++ int(double) truncation toward zero, over the rationals. -/
def truncQ (q : ℚ) : ℤ := if 0 ≤ q then ⌊q⌋ else ⌈q⌉

/-- Result of one statistics loop-body execution. -/
structure StatsIterResult where
  state : ProgState
  logs : List LogEvent
  deriving Repr, DecidableEq

/-- One iteration of the statistics loop body (lines 33-44): sleep, read
the elapsed duration (environment input), print the TX and RX Mbps
figures, the RX sample count and the truncated time.  It writes no shared
state. -/
def statsIter (duration : ℚ) (s : ProgState) : StatsIterResult :=
  ⟨s, [LogEvent.stdoutStats (mbpsOf duration s.total_tx_samples)
        (mbpsOf duration s.total_rx_samples) s.total_rx_samples (truncQ duration)]⟩

/-- The statistics loop guard (line 31): while not stop_signal. -/
def statsLoopContinues (s : ProgState) : Bool := !s.stop_signal

/-! ### Waveform generation (lines 68-78) -/

/-- One generated sample from two successive rand() results:
(rand() % 2) * 2 - 1 for each component, hence plus or minus 1. -/
def genSample (r1 r2 : Nat) : Sample :=
  ((r1 % 2 : ℤ) * 2 - 1, (r2 % 2 : ℤ) * 2 - 1)

/-- One pre-generated buffer of SAMPS_PER_BUFFER samples; rands is the
rand() stream, base the index of the first rand() result consumed. -/
def genBuffer (rands : Nat → Nat) (base : Nat) : List Sample :=
  (List.range SAMPS_PER_BUFFER).map
    (fun i => genSample (rands (base + 2 * i)) (rands (base + 2 * i + 1)))

/-- The NUM_TX_BUFFERS pre-generated transmit buffers. -/
def genTxBuffs (rands : Nat → Nat) : List (List Sample) :=
  (List.range NUM_TX_BUFFERS).map
    (fun b => genBuffer rands (b * (2 * SAMPS_PER_BUFFER)))

/-! ### Main thread structure (lines 48-156) -/

/-- The successive actions of UHD_SAFE_MAIN, in source order. -/
inductive MainAction
  | setThreadPriority
  | makeUsrp
  | configureDevice
  | generateTxBuffs
  | getTxStream
  | getRxStream
  | spawnStatsThread
  | spawnTxThread
  | issueStreamCmdStart
  | runRxLoop
  | setStopSignal
  | setTxDone
  | issueStreamCmdStop
  | joinTxThread
  | joinStatsThread
  | printFinal
  deriving Repr, DecidableEq

/-- The action trace of the main function, in the order of lines 50-155. -/
def mainActions : List MainAction :=
  [.setThreadPriority, .makeUsrp, .configureDevice, .generateTxBuffs,
   .getTxStream, .getRxStream, .spawnStatsThread, .spawnTxThread,
   .issueStreamCmdStart, .runRxLoop, .setStopSignal, .setTxDone,
   .issueStreamCmdStop, .joinTxThread, .joinStatsThread, .printFinal]

/-- Whether a main action spawns an OS thread. -/
def isSpawnAction : MainAction → Bool
  | .spawnStatsThread => true
  | .spawnTxThread => true
  | _ => false

/-- Number of OS threads the benchmark itself runs: the main thread plus
the threads main spawns. -/
def numThreads : Nat := 1 + (mainActions.filter isSpawnAction).length

/-- The shutdown writes of main (lines 147-148): set stop_signal, then
tx_done. -/
def mainShutdown (s : ProgState) : ProgState :=
  { s with stop_signal := true, tx_done := true }

/-! ### Helper lemmas -/

/-- A concrete state used by witnesses: flags clear, counters zero, eight
buffers of one sample each. -/
def demoState : ProgState :=
  ⟨false, false, 0, 0, List.replicate NUM_TX_BUFFERS [((1 : ℤ), (1 : ℤ))]⟩

theorem txIter_state_tx_buffs (e : Nat) (s : ProgState) (l : TxLocal) :
    (txIter e s l).state.tx_buffs = s.tx_buffs := rfl

theorem txLoop_state_tx_buffs (envs : List Nat) (s : ProgState) (l : TxLocal) :
    (txLoop envs s l).state.tx_buffs = s.tx_buffs := by
  induction envs generalizing s l with
  | nil => rfl
  | cons e rest ih =>
      simp only [txLoop]
      rw [ih]
      rfl

theorem txLoop_state_total_rx (envs : List Nat) (s : ProgState) (l : TxLocal) :
    (txLoop envs s l).state.total_rx_samples = s.total_rx_samples := by
  induction envs generalizing s l with
  | nil => rfl
  | cons e rest ih =>
      simp only [txLoop]
      rw [ih]
      rfl

theorem txLoop_loc_eob (envs : List Nat) (s : ProgState) (l : TxLocal) :
    (txLoop envs s l).loc.md.end_of_burst = l.md.end_of_burst := by
  induction envs generalizing s l with
  | nil => rfl
  | cons e rest ih =>
      simp only [txLoop]
      rw [ih]
      rfl

theorem txLoop_loc_sob (envs : List Nat) (s : ProgState) (l : TxLocal) :
    (txLoop envs s l).loc.md.start_of_burst
      = if envs.isEmpty then l.md.start_of_burst else false := by
  induction envs generalizing s l with
  | nil => rfl
  | cons e rest ih =>
      simp only [txLoop, List.isEmpty_cons, if_false, Bool.false_eq_true]
      rw [ih]
      cases rest <;> rfl

/-- Characterization of the send calls of a TX loop run: iteration j sends
buffer number (buff_idx + j) mod NUM_TX_BUFFERS, with start_of_burst kept
only on the first call and end_of_burst never set. -/
theorem txLoop_calls (envs : List Nat) (s : ProgState) (l : TxLocal)
    (hl : l.buff_idx < NUM_TX_BUFFERS) :
    (txLoop envs s l).calls = (List.range envs.length).map (fun j =>
      ⟨s.tx_buffs.getD ((l.buff_idx + j) % NUM_TX_BUFFERS) [],
       (s.tx_buffs.getD ((l.buff_idx + j) % NUM_TX_BUFFERS) []).length,
       ⟨if j = 0 then l.md.start_of_burst else false, l.md.end_of_burst⟩⟩) := by
  induction envs generalizing s l with
  | nil => rfl
  | cons e rest ih =>
      have hl2 : (l.buff_idx + 1) % NUM_TX_BUFFERS < NUM_TX_BUFFERS :=
        Nat.mod_lt _ (by norm_num [NUM_TX_BUFFERS])
      simp only [txLoop, List.length_cons, List.range_succ_eq_map, List.map_cons,
        List.map_map]
      refine List.cons_eq_cons.mpr ⟨?_, ?_⟩
      · simp [txIter, Nat.mod_eq_of_lt hl]
      · rw [ih _ _ hl2]
        apply List.map_congr_left
        intro j _
        have hidx : ((l.buff_idx + 1) % NUM_TX_BUFFERS + j) % NUM_TX_BUFFERS
            = (l.buff_idx + (j + 1)) % NUM_TX_BUFFERS := by
          unfold NUM_TX_BUFFERS
          omega
        simp [txIter, Function.comp, hidx, Nat.succ_ne_zero]

theorem txLocals_buff_idx (envs : List Nat) (s : ProgState) (l : TxLocal)
    (hl : l.buff_idx < NUM_TX_BUFFERS) :
    ∀ l2 ∈ txLocals envs s l, l2.buff_idx < NUM_TX_BUFFERS := by
  induction envs generalizing s l with
  | nil => intro l2 h; cases h
  | cons e rest ih =>
      intro l2 h
      simp only [txLocals, List.mem_cons] at h
      rcases h with h | h
      · exact h ▸ hl
      · exact ih _ _ (Nat.mod_lt _ (by norm_num [NUM_TX_BUFFERS])) l2 h

theorem rxIter_total_tx (n : Nat) (md : RxMetadata) (s : ProgState) :
    (rxIter n md s).state.total_tx_samples = s.total_tx_samples := by
  unfold rxIter
  split <;> rfl

theorem rxLoop_total_tx (renvs : List (ℚ × Nat × RxMetadata)) (s : ProgState) :
    (rxLoop renvs s).1.total_tx_samples = s.total_tx_samples := by
  induction renvs generalizing s with
  | nil => rfl
  | cons head rest ih =>
      obtain ⟨t, n, md⟩ := head
      simp only [rxLoop]
      split
      · rw [ih, rxIter_total_tx]
      · rfl

/-! ### Claim theorems -/

/-- C6: the two sample counters increment independently: every TX loop
iteration (and any TX loop run) leaves total_rx_samples unchanged, every RX
loop iteration (and any RX loop run) leaves total_tx_samples unchanged, and
a statistics-loop iteration modifies no program state at all. -/
theorem counters_increment_independently (e num_rx : Nat) (s : ProgState)
    (l : TxLocal) (md : RxMetadata) (d : ℚ) (envs : List Nat)
    (renvs : List (ℚ × Nat × RxMetadata)) :
    (txIter e s l).state.total_rx_samples = s.total_rx_samples ∧
    (txLoop envs s l).state.total_rx_samples = s.total_rx_samples ∧
    (rxIter num_rx md s).state.total_tx_samples = s.total_tx_samples ∧
    (rxLoop renvs s).1.total_tx_samples = s.total_tx_samples ∧
    (statsIter d s).state = s :=
  ⟨rfl, txLoop_state_total_rx envs s l, rxIter_total_tx num_rx md s,
   rxLoop_total_tx renvs s, rfl⟩

/-- C7: the benchmark runs exactly three OS threads: main spawns exactly
the statistics thread and the TX thread (in that order), the RX loop is an
action of the main thread itself and not a spawn, and no other action
spawns a thread. -/
theorem three_threads :
    mainActions.filter isSpawnAction
      = [MainAction.spawnStatsThread, MainAction.spawnTxThread] ∧
    MainAction.runRxLoop ∈ mainActions ∧
    isSpawnAction MainAction.runRxLoop = false ∧
    numThreads = 3 := by decide

/-- C8: at the start of every TX loop iteration buff_idx is strictly below
NUM_TX_BUFFERS, so when tx_buffs holds its NUM_TX_BUFFERS generated
buffers, the access tx_buffs[buff_idx] is in bounds. -/
theorem tx_buff_idx_in_bounds (envs : List Nat) (s : ProgState) (l2 : TxLocal)
    (hmem : l2 ∈ txLocals envs s txLocal0)
    (hlen : s.tx_buffs.length = NUM_TX_BUFFERS) :
    l2.buff_idx < NUM_TX_BUFFERS ∧ l2.buff_idx < s.tx_buffs.length := by
  have h := txLocals_buff_idx envs s txLocal0 (by norm_num [txLocal0, NUM_TX_BUFFERS])
    l2 hmem
  exact ⟨h, hlen ▸ h⟩

theorem tx_buff_idx_in_bounds_witness :
    txLocal0 ∈ txLocals [0] demoState txLocal0 ∧
    demoState.tx_buffs.length = NUM_TX_BUFFERS ∧
    (txLocal0.buff_idx < NUM_TX_BUFFERS ∧
     txLocal0.buff_idx < demoState.tx_buffs.length) :=
  ⟨by decide, by decide,
   tx_buff_idx_in_bounds [0] demoState txLocal0 (by decide) (by decide)⟩

/-- C9: an RX loop iteration whose recv metadata carries an error code
other than ERROR_CODE_NONE leaves total_rx_samples unchanged; indeed it
leaves the whole program state unchanged. -/
theorem rx_error_leaves_counter_unchanged (num_rx : Nat) (md : RxMetadata)
    (s : ProgState) (h : md.error_code ≠ RxErrorCode.ERROR_CODE_NONE) :
    (rxIter num_rx md s).state.total_rx_samples = s.total_rx_samples ∧
    (rxIter num_rx md s).state = s := by
  unfold rxIter
  rw [if_pos h]
  exact ⟨rfl, rfl⟩

theorem rx_error_leaves_counter_unchanged_witness :
    (RxMetadata.mk RxErrorCode.ERROR_CODE_TIMEOUT).error_code
      ≠ RxErrorCode.ERROR_CODE_NONE ∧
    ((rxIter 7 ⟨RxErrorCode.ERROR_CODE_TIMEOUT⟩ demoState).state.total_rx_samples
        = demoState.total_rx_samples ∧
     (rxIter 7 ⟨RxErrorCode.ERROR_CODE_TIMEOUT⟩ demoState).state = demoState) :=
  ⟨by decide, rx_error_leaves_counter_unchanged 7 _ demoState (by decide)⟩

/-- C1: on an RX iteration whose recv reports an error the error is logged
to stderr, the iteration ends by continuing to the next one, and the state
is untouched; on a TX iteration whose send returns fewer samples than the
buffer size the underflow is logged to stderr, the iteration ends by
continuing to the next one, and the state update is the ordinary one (the
counter still accumulates num_sent, buff_idx still advances, the send is
not retried, and neither stop flag is touched). -/
theorem rx_tx_error_logged_and_loop_continues (num_rx num_sent : Nat)
    (md : RxMetadata) (s : ProgState) (l : TxLocal)
    (hrx : md.error_code ≠ RxErrorCode.ERROR_CODE_NONE)
    (htx : num_sent < (s.tx_buffs.getD l.buff_idx []).length) :
    (rxIter num_rx md s).logs = [LogEvent.stderrRxError md.error_code] ∧
    (rxIter num_rx md s).outcome = IterOutcome.nextIteration ∧
    (rxIter num_rx md s).state = s ∧
    (txIter num_sent s l).logs
      = [LogEvent.stderrTxUnderflow num_sent
          (s.tx_buffs.getD l.buff_idx []).length] ∧
    (txIter num_sent s l).outcome = IterOutcome.nextIteration ∧
    (txIter num_sent s l).state.total_tx_samples
      = (s.total_tx_samples + num_sent) % U64 ∧
    (txIter num_sent s l).loc.buff_idx = (l.buff_idx + 1) % NUM_TX_BUFFERS ∧
    (txIter num_sent s l).state.stop_signal = s.stop_signal ∧
    (txIter num_sent s l).state.tx_done = s.tx_done := by
  unfold rxIter txIter
  rw [if_pos hrx]
  refine ⟨rfl, rfl, rfl, ?_, rfl, rfl, rfl, rfl, rfl⟩
  simp only [if_pos htx]

theorem rx_tx_error_logged_and_loop_continues_witness :
    (RxMetadata.mk RxErrorCode.ERROR_CODE_OVERFLOW).error_code
      ≠ RxErrorCode.ERROR_CODE_NONE ∧
    0 < (demoState.tx_buffs.getD txLocal0.buff_idx []).length ∧
    ((rxIter 5 ⟨RxErrorCode.ERROR_CODE_OVERFLOW⟩ demoState).logs
        = [LogEvent.stderrRxError RxErrorCode.ERROR_CODE_OVERFLOW] ∧
     (rxIter 5 ⟨RxErrorCode.ERROR_CODE_OVERFLOW⟩ demoState).outcome
        = IterOutcome.nextIteration ∧
     (rxIter 5 ⟨RxErrorCode.ERROR_CODE_OVERFLOW⟩ demoState).state = demoState ∧
     (txIter 0 demoState txLocal0).logs
        = [LogEvent.stderrTxUnderflow 0
            (demoState.tx_buffs.getD txLocal0.buff_idx []).length] ∧
     (txIter 0 demoState txLocal0).outcome = IterOutcome.nextIteration ∧
     (txIter 0 demoState txLocal0).state.total_tx_samples
        = (demoState.total_tx_samples + 0) % U64 ∧
     (txIter 0 demoState txLocal0).loc.buff_idx
        = (txLocal0.buff_idx + 1) % NUM_TX_BUFFERS ∧
     (txIter 0 demoState txLocal0).state.stop_signal = demoState.stop_signal ∧
     (txIter 0 demoState txLocal0).state.tx_done = demoState.tx_done) :=
  ⟨by decide, by decide,
   rx_tx_error_logged_and_loop_continues 5 0 _ demoState txLocal0
     (by decide) (by decide)⟩

/-- The in-loop prefix of the TX thread send trace: iteration j sends the
buffer j mod NUM_TX_BUFFERS with start_of_burst only on the first call and
end_of_burst never set. -/
theorem txThread_calls_take (envs : List Nat) (s : ProgState) :
    (txThread envs s).calls.take envs.length
      = (List.range envs.length).map (fun j =>
          ⟨s.tx_buffs.getD (j % NUM_TX_BUFFERS) [],
           (s.tx_buffs.getD (j % NUM_TX_BUFFERS) []).length,
           ⟨if j = 0 then true else false, false⟩⟩) := by
  have h := txLoop_calls envs s txLocal0 (by norm_num [txLocal0, NUM_TX_BUFFERS])
  show ((txLoop envs s txLocal0).calls
      ++ [(⟨[], 0, ⟨(txLoop envs s txLocal0).loc.md.start_of_burst, true⟩⟩ :
            SendCall)]).take envs.length = _
  rw [h, List.take_left' (by simp)]
  apply List.map_congr_left
  intro j _
  simp [txLocal0]

/-- The post-loop suffix of the TX thread send trace: exactly one
zero-length send with end_of_burst set. -/
theorem txThread_calls_drop (envs : List Nat) (s : ProgState) :
    (txThread envs s).calls.drop envs.length
      = [⟨[], 0, ⟨envs.isEmpty, true⟩⟩] := by
  have h := txLoop_calls envs s txLocal0 (by norm_num [txLocal0, NUM_TX_BUFFERS])
  have hsob := txLoop_loc_sob envs s txLocal0
  show ((txLoop envs s txLocal0).calls
      ++ [(⟨[], 0, ⟨(txLoop envs s txLocal0).loc.md.start_of_burst, true⟩⟩ :
            SendCall)]).drop envs.length = _
  rw [hsob, h, List.drop_left' (by simp)]
  cases envs <;> simp [txLocal0]

/-- C10: in the TX send trace, start_of_burst is true exactly on the first
in-loop send, end_of_burst is false on every in-loop send, and after the
loop exactly one zero-length send with end_of_burst set is issued. -/
theorem tx_burst_metadata_wellformed (envs : List Nat) (s : ProgState) :
    ((txThread envs s).calls.take envs.length).map SendCall.md
      = (List.range envs.length).map
          (fun j => ⟨if j = 0 then true else false, false⟩) ∧
    (txThread envs s).calls.drop envs.length
      = [⟨[], 0, ⟨envs.isEmpty, true⟩⟩] ∧
    (txThread envs s).calls.countP (fun c => c.md.end_of_burst) = 1 := by
  refine ⟨?_, txThread_calls_drop envs s, ?_⟩
  · rw [txThread_calls_take, List.map_map]
    rfl
  · rw [← List.take_append_drop envs.length (txThread envs s).calls,
      List.countP_append, txThread_calls_take, txThread_calls_drop]
    simp [List.countP_map, Function.comp, List.countP_cons]

/-- C5: all NUM_TX_BUFFERS buffers of SAMPS_PER_BUFFER samples are
generated before the streamers are created, before the TX thread starts
and before the stream-start command; the TX thread never modifies the
buffers and its in-loop sends cycle through them round-robin from index
zero. -/
theorem waveform_pregenerated_round_robin (rands : Nat → Nat)
    (envs : List Nat) (s : ProgState) :
    (genTxBuffs rands).length = NUM_TX_BUFFERS ∧
    ((genTxBuffs rands).all fun b => b.length == SAMPS_PER_BUFFER) = true ∧
    mainActions.indexOf MainAction.generateTxBuffs
      < mainActions.indexOf MainAction.getTxStream ∧
    mainActions.indexOf MainAction.generateTxBuffs
      < mainActions.indexOf MainAction.spawnTxThread ∧
    mainActions.indexOf MainAction.generateTxBuffs
      < mainActions.indexOf MainAction.issueStreamCmdStart ∧
    (txThread envs s).state.tx_buffs = s.tx_buffs ∧
    ((txThread envs s).calls.take envs.length).map SendCall.data
      = (List.range envs.length).map
          (fun j => s.tx_buffs.getD (j % NUM_TX_BUFFERS) []) := by
  refine ⟨by simp [genTxBuffs], ?_, by decide, by decide, by decide, ?_, ?_⟩
  · rw [List.all_eq_true]
    intro b hb
    simp only [genTxBuffs, List.mem_map] at hb
    obtain ⟨i, _, rfl⟩ := hb
    simp [genBuffer]
  · exact txLoop_state_tx_buffs envs s txLocal0
  · rw [txThread_calls_take, List.map_map]
    rfl

/-- C3: termination is cooperative: RUN_TIME is 10 seconds, a receive-loop
guard that observes an elapsed time of RUN_TIME or more ends the loop at
once, after the loop the main thread sets the two stop flags, issues the
stream-stop command and joins the TX thread and the statistics thread
(each joined exactly once), and each worker loop continues exactly while
its flag is still false. -/
theorem cooperative_termination (t : ℚ) (n : Nat) (md : RxMetadata)
    (rest : List (ℚ × Nat × RxMetadata)) (s : ProgState)
    (ht : RUN_TIME ≤ t) :
    RUN_TIME = 10 ∧
    rxLoop ((t, n, md) :: rest) s = (s, []) ∧
    mainActions.drop 9
      = [MainAction.runRxLoop, MainAction.setStopSignal, MainAction.setTxDone,
         MainAction.issueStreamCmdStop, MainAction.joinTxThread,
         MainAction.joinStatsThread, MainAction.printFinal] ∧
    (∀ s2 : ProgState, txLoopContinues s2 = !s2.tx_done) ∧
    (∀ s2 : ProgState, statsLoopContinues s2 = !s2.stop_signal) ∧
    (∀ s2 : ProgState,
        mainShutdown s2 = { s2 with stop_signal := true, tx_done := true }) ∧
    mainActions.count MainAction.joinTxThread = 1 ∧
    mainActions.count MainAction.joinStatsThread = 1 := by
  refine ⟨rfl, ?_, by decide, fun _ => rfl, fun _ => rfl, fun _ => rfl,
    by decide, by decide⟩
  unfold rxLoop
  rw [if_neg (not_lt.mpr ht)]

theorem cooperative_termination_witness :
    RUN_TIME ≤ (10 : ℚ) ∧
    (RUN_TIME = 10 ∧
     rxLoop [((10 : ℚ), 0, ⟨RxErrorCode.ERROR_CODE_NONE⟩)] demoState
        = (demoState, []) ∧
     mainActions.drop 9
        = [MainAction.runRxLoop, MainAction.setStopSignal, MainAction.setTxDone,
           MainAction.issueStreamCmdStop, MainAction.joinTxThread,
           MainAction.joinStatsThread, MainAction.printFinal] ∧
     (∀ s2 : ProgState, txLoopContinues s2 = !s2.tx_done) ∧
     (∀ s2 : ProgState, statsLoopContinues s2 = !s2.stop_signal) ∧
     (∀ s2 : ProgState,
         mainShutdown s2 = { s2 with stop_signal := true, tx_done := true }) ∧
     mainActions.count MainAction.joinTxThread = 1 ∧
     mainActions.count MainAction.joinStatsThread = 1) :=
  ⟨le_refl 10,
   cooperative_termination 10 0 ⟨RxErrorCode.ERROR_CODE_NONE⟩ [] demoState
     (le_refl 10)⟩

/-- A state whose TX counter makes the uint64 Mbps numerator wrap:
2 to the 58 samples times 64 bits is exactly 2 to the 64. -/
def sOverflow : ProgState := ⟨false, false, 0, 2 ^ 58, []⟩

/-- C2 counterexample: at a TX counter of 2 to the 58 samples and one
elapsed second, the statistics iteration does not report
counter times sizeof(complex float) times 8 over (duration times 1e6)
Mbps: the uint64 numerator wraps to zero, so 0 Mbps is printed instead. -/
theorem stats_mbps_formula_cex :
    (statsIter 1 sOverflow).logs ≠
      [LogEvent.stdoutStats
        (((2 : ℚ) ^ 58 * sizeofComplexFloat * 8) / (1 * 1e6))
        (((0 : ℚ) * sizeofComplexFloat * 8) / (1 * 1e6)) 0 (truncQ 1)] := by
  have hL : mbpsOf 1 (2 ^ 58) = 0 := by
    unfold mbpsOf
    norm_num [U64, sizeofComplexFloat]
  intro h
  simp only [statsIter, sOverflow, List.cons.injEq, and_true,
    LogEvent.stdoutStats.injEq] at h
  rw [hL] at h
  have h1 := h.1
  norm_num [sizeofComplexFloat] at h1

/-- C2 (amended): whenever the uint64 numerator counter times
sizeof(complex float) times 8 does not overflow, each reported Mbps figure
equals counter times sizeof(complex float) times 8 over
(elapsed seconds times 1e6). -/
theorem stats_mbps_formula (d : ℚ) (s : ProgState)
    (htx : s.total_tx_samples * sizeofComplexFloat * 8 < U64)
    (hrx : s.total_rx_samples * sizeofComplexFloat * 8 < U64) :
    (statsIter d s).logs
      = [LogEvent.stdoutStats
          ((s.total_tx_samples : ℚ) * sizeofComplexFloat * 8 / (d * 1e6))
          ((s.total_rx_samples : ℚ) * sizeofComplexFloat * 8 / (d * 1e6))
          s.total_rx_samples (truncQ d)] := by
  unfold statsIter mbpsOf
  rw [Nat.mod_eq_of_lt htx, Nat.mod_eq_of_lt hrx]
  push_cast
  rfl

theorem stats_mbps_formula_witness :
    demoState.total_tx_samples * sizeofComplexFloat * 8 < U64 ∧
    demoState.total_rx_samples * sizeofComplexFloat * 8 < U64 ∧
    (statsIter 1 demoState).logs
      = [LogEvent.stdoutStats
          ((demoState.total_tx_samples : ℚ) * sizeofComplexFloat * 8 / (1 * 1e6))
          ((demoState.total_rx_samples : ℚ) * sizeofComplexFloat * 8 / (1 * 1e6))
          demoState.total_rx_samples (truncQ 1)] :=
  ⟨by decide, by decide, stats_mbps_formula 1 demoState (by decide) (by decide)⟩

/-- C4 counterexample: cross-thread coordination does not go through a
single shared stop flag, and the counters do not only ever increase.  At
the concrete shared state with stop_signal set and tx_done clear the
statistics loop stops while the TX loop continues, so the two loops poll
two distinct flags; and a TX iteration that adds 2 to a counter holding
2 to the 64 minus 1 wraps it down to 1. -/
theorem coordination_single_flag_cex :
    txLoopContinues ⟨true, false, 0, 0, []⟩ = true ∧
    statsLoopContinues ⟨true, false, 0, 0, []⟩ = false ∧
    (txIter 2 ⟨false, false, 0, U64 - 1, []⟩ txLocal0).state.total_tx_samples
      = 1 ∧
    (1 : Nat) < U64 - 1 := by decide

/-- C4 (amended): cross-thread coordination state consists of exactly two
shared stop flags (stop_signal polled by the statistics loop, tx_done
polled by the TX loop) and the two atomic counters: a TX iteration changes
nothing but total_tx_samples, to which it adds num_sent mod 2 to the 64;
an RX iteration changes nothing but total_rx_samples, to which it adds
num_rx mod 2 to the 64 (or leaves it alone on error); the statistics
iteration changes nothing; shutdown sets exactly the two flags; and each
counter is never decremented or reset, so it increases whenever the
addition does not wrap. -/
theorem coordination_state_amended (e num_rx : Nat) (s s2 s3 : ProgState)
    (l : TxLocal) (md : RxMetadata) (d : ℚ)
    (hno : s.total_tx_samples + e < U64)
    (hno2 : s2.total_rx_samples + num_rx < U64) :
    (txIter e s l).state
      = { s with total_tx_samples := (s.total_tx_samples + e) % U64 } ∧
    s.total_tx_samples ≤ (txIter e s l).state.total_tx_samples ∧
    ((rxIter num_rx md s2).state = s2 ∨
     (rxIter num_rx md s2).state
       = { s2 with
            total_rx_samples := (s2.total_rx_samples + num_rx) % U64 }) ∧
    s2.total_rx_samples ≤ (rxIter num_rx md s2).state.total_rx_samples ∧
    (statsIter d s3).state = s3 ∧
    mainShutdown s3 = { s3 with stop_signal := true, tx_done := true } := by
  have htx : (txIter e s l).state.total_tx_samples
      = (s.total_tx_samples + e) % U64 := rfl
  refine ⟨rfl, ?_, ?_, ?_, rfl, rfl⟩
  · rw [htx, Nat.mod_eq_of_lt hno]
    exact Nat.le_add_right _ _
  · unfold rxIter
    split
    · exact Or.inl rfl
    · exact Or.inr rfl
  · unfold rxIter
    split
    · exact le_refl _
    · show s2.total_rx_samples ≤ (s2.total_rx_samples + num_rx) % U64
      rw [Nat.mod_eq_of_lt hno2]
      exact Nat.le_add_right _ _

theorem coordination_state_amended_witness :
    demoState.total_tx_samples + 3 < U64 ∧
    demoState.total_rx_samples + 4 < U64 ∧
    ((txIter 3 demoState txLocal0).state
        = { demoState with
             total_tx_samples := (demoState.total_tx_samples + 3) % U64 } ∧
     demoState.total_tx_samples
        ≤ (txIter 3 demoState txLocal0).state.total_tx_samples ∧
     ((rxIter 4 ⟨RxErrorCode.ERROR_CODE_NONE⟩ demoState).state = demoState ∨
      (rxIter 4 ⟨RxErrorCode.ERROR_CODE_NONE⟩ demoState).state
        = { demoState with
             total_rx_samples := (demoState.total_rx_samples + 4) % U64 }) ∧
     demoState.total_rx_samples
        ≤ (rxIter 4 ⟨RxErrorCode.ERROR_CODE_NONE⟩ demoState).state.total_rx_samples ∧
     (statsIter 2 demoState).state = demoState ∧
     mainShutdown demoState
        = { demoState with stop_signal := true, tx_done := true }) :=
  ⟨by decide, by decide,
   coordination_state_amended 3 4 demoState demoState demoState txLocal0
     ⟨RxErrorCode.ERROR_CODE_NONE⟩ 2 (by decide) (by decide)⟩

end Throughput
